import Mathlib

/-!
Verification of the Training-Engine weekly-coaching core.

This file shallowly embeds the TypeScript sources of the repository and
proves/refutes the frozen claims about them.  Conventions:

* JS `number` values that are always integers are modelled as `Nat`/`Int`;
  fractional quantities (adherence rates, fatigue scores, volume
  multipliers) are modelled as `ℚ`.  The source compares such values against
  decimal literals (0.4, 0.75, ...); those literals are exact in `ℚ`.
* 32-bit wrap-around arithmetic (the seeded RNG) is modelled on `Nat` with
  explicit `% 2^32`.
* Thrown exceptions are modelled with `Except`/`Option`.
* String-typed union fields validated at runtime (`invariants.ts`) are kept
  as `String`; fields that are statically closed enumerations become
  inductive types.
-/

namespace TrainingEngine

/-! ## Data model — `models.ts` (src/unnamed/part_003) -/

/-- Training phase (`TrainingPhase` in models.ts). -/
inductive TrainingPhase
  | onboarding
  | building
  | maintaining
  | recovering
deriving DecidableEq, Repr

/-- Intensity tier (`IntensityTier` in models.ts), ordered light < moderate < challenging. -/
inductive IntensityTier
  | light
  | moderate
  | challenging
deriving DecidableEq, Repr

/-- Energy context (`EnergyContext` in models.ts). -/
inductive EnergyContext
  | depleted
  | low
  | normal
  | high
deriving DecidableEq, Repr

/-- Weekly decision (`TrainingDecision` in models.ts). -/
inductive TrainingDecision
  | progress
  | maintain
  | scale_back
deriving DecidableEq, Repr

/-- Coach tone of an evaluation result. -/
inductive CoachTone
  | encouraging
  | steady
  | gentle
  | celebratory
deriving DecidableEq, Repr

/-- `ProgramConfig` in models.ts. -/
structure ProgramConfig where
  sessions_per_week : Nat
  intensity_tier : IntensityTier
  session_duration_minutes : Nat
  volume_multiplier : ℚ
deriving DecidableEq, Repr

/-- `ProgramConstraints` in models.ts: per-field ceilings for `ProgramConfig`. -/
structure ProgramConstraints where
  max_sessions_per_week : Nat
  max_intensity_tier : IntensityTier
  max_duration_minutes : Nat
  max_volume_multiplier : ℚ
deriving DecidableEq, Repr

/-- `TrainingState` in models.ts, restricted to the fields read or written by
the evaluator, the program mutator, the phase machine and the plan generator
(the remaining fields — rolling 7/30-day sums, totals, last-decision
metadata, dates — are not consulted by any function a claim is about). -/
structure TrainingState where
  local_user_id : String
  current_phase : TrainingPhase
  week_number : Nat
  program : ProgramConfig
  program_constraints : ProgramConstraints
  sessions_last_14_days : Nat
  adherence_rate_2week : ℚ
  low_adherence_weeks_in_row : Nat
  accumulated_fatigue_score : ℚ
  energy_context : EnergyContext
  recent_pain_flags : List String
  has_active_injury : Bool
  consecutive_pain_free_weeks : Nat
  days_since_last_session : Nat
  weeks_since_last_scale_back : Option Nat
  consecutive_stable_weeks : Nat
deriving DecidableEq, Repr

/-! ### `PROGRESSION_RULES` constants (models.ts) -/

def ONBOARDING_WEEKS : Nat := 3

def VOLUME_START : ℚ := 1.0

def VOLUME_LADDER : List ℚ := [1.0, 1.1, 1.2, 1.3, 1.4, 1.5]

def VOLUME_CAP_LIGHT : ℚ := 1.2

def VOLUME_CAP_MODERATE : ℚ := 1.3

def DURATION_RECOVERING : Nat := 20

def DURATION_BASE_LIGHT : Nat := 25

def DURATION_BASE_MODERATE : Nat := 30

def DURATION_CHALLENGING_LADDER : List Nat := [35, 40, 45, 50, 55, 60]

/-- Position of a tier in `INTENSITY_PROGRESSION = ["light","moderate","challenging"]`;
models the source's `indexOf` on that array. -/
def intensityIndex : IntensityTier → Nat
  | .light => 0
  | .moderate => 1
  | .challenging => 2

/-- Models indexing `["light","moderate","challenging"]` at a position that is
`≤ 2` (the only way the source indexes it). -/
def intensityFromIndex : Nat → IntensityTier
  | 0 => .light
  | 1 => .moderate
  | _ => .challenging

/-! ## Decision evaluator — `evaluateTrainingDecision`
(src/unnamed/part_002, lines 58–288).

The repository contains two revisions of this function; the one embedded here
is the revision with the 3-week inactivity gates (the other revision, in
src/src/evaluator.ts, uses a flat 10-day absence gate and has no
short-inactivity maintain gate).  Claim C3 cites the 3-week gates of this
revision explicitly, and every other behavioural detail of the two revisions
relevant to the claims agrees. -/

structure EvaluationResult where
  decision : TrainingDecision
  reason : String
  user_message : String
  coach_tone : CoachTone
deriving DecidableEq, Repr

/-- `getAdherenceForRules` (part_002 lines 64–71): clamped two-week adherence. -/
def getAdherenceForRules (state : TrainingState) : ℚ :=
  let target_in_window : Nat := state.program.sessions_per_week * 2
  let clamped_sessions : Nat := min state.sessions_last_14_days target_in_window
  (clamped_sessions : ℚ) / (target_in_window : ℚ)

/-- `evaluateTrainingDecision` (part_002 lines 77–288). -/
def evaluateTrainingDecision (state : TrainingState) : EvaluationResult :=
  let adherence_for_rules := getAdherenceForRules state
  let inactive_weeks_equivalent : Nat := state.days_since_last_session / 7
  -- Check 0: active injury flag (or two pain reports)
  if state.has_active_injury = true ∨ 2 ≤ state.recent_pain_flags.length then
    { decision := .scale_back
      reason := if state.has_active_injury = true
        then "Active injury flag present"
        else "Multiple pain reports in recent weeks"
      user_message := "You’ve reported pain recently. This week is lighter so you can keep moving while things settle."
      coach_tone := .gentle }
  -- Check 1: high accumulated fatigue
  else if 7 ≤ state.accumulated_fatigue_score then
    { decision := .scale_back
      reason := "Fatigue score is high (≥7/10)"
      user_message := "Fatigue is running high. This week is lighter to help you recover and come back stronger."
      coach_tone := .gentle }
  -- Check 2: energy depletion
  else if state.energy_context = .depleted then
    { decision := .scale_back
      reason := "Energy context is depleted (likely underfueling)"
      user_message := "Energy looks low right now. We’ll keep this week lighter so training stays sustainable while you refuel."
      coach_tone := .gentle }
  -- Check 3: severe adherence drop
  else if adherence_for_rules < 0.4 ∧ 2 ≤ state.low_adherence_weeks_in_row then
    { decision := .scale_back
      reason := "Adherence below 40% for 2+ consecutive weeks"
      user_message := "Let’s make this more doable. This week is lighter so consistency is easier to protect."
      coach_tone := .gentle }
  -- Check 4: extended absence (3+ weeks)
  else if 3 ≤ inactive_weeks_equivalent then
    { decision := .scale_back
      reason := "Inactive for 3+ weeks"
      user_message := "Welcome back. This week is an ease-in week — light, repeatable, and focused on rebuilding the habit."
      coach_tone := .gentle }
  -- Check 5: recent inactivity (1–2 weeks)
  else if 1 ≤ inactive_weeks_equivalent then
    { decision := .maintain
      reason := "Recent inactivity (" ++ toString inactive_weeks_equivalent ++ " week"
        ++ (if 1 < inactive_weeks_equivalent then "s" else "") ++ " since last session)"
      user_message := "You’ve had a short break — after a week or two away, we’ll keep things steady to rebuild rhythm."
      coach_tone := .steady }
  -- Check 6: still in onboarding
  else if state.current_phase = .onboarding then
    { decision := .maintain
      reason := "Onboarding phase (week " ++ toString state.week_number ++ "/" ++ toString ONBOARDING_WEEKS ++ ")"
      user_message := "We’re keeping it easy while you learn the flow and build the habit. Show up — that’s the goal."
      coach_tone := .encouraging }
  -- Check 7: recent pain report without active injury
  else if 0 < state.recent_pain_flags.length ∧ state.has_active_injury = false then
    { decision := .maintain
      reason := "Recent pain report - monitoring before progression"
      user_message := "We’ll keep things steady while we watch how you feel. No need to push this week."
      coach_tone := .steady }
  -- Pain gate: two pain-free weeks before progression
  else if state.consecutive_pain_free_weeks < 2
      ∧ (0 < state.recent_pain_flags.length ∨ state.has_active_injury = true) then
    { decision := .maintain
      reason := "Waiting for 2 pain-free weeks before progression ("
        ++ toString state.consecutive_pain_free_weeks ++ "/2)"
      user_message := "Let’s stay steady until you’ve had two pain-free weeks. Then we’ll progress."
      coach_tone := .steady }
  else
    -- Check 8 needs the payload of the optional counter, so it is matched here;
    -- every later check is independent of it.
    let after_stabilization : EvaluationResult :=
      -- Check 9: moderate adherence (40–75%)
      if 0.4 ≤ adherence_for_rules ∧ adherence_for_rules < 0.75 then
        { decision := .maintain
          reason := "Adherence in 40-75% range (stability zone)"
          user_message := "You’re showing up. Keep the sessions steady — consistency is the win this week."
          coach_tone := .steady }
      -- Check 10: moderate fatigue (5–7)
      else if 5 ≤ state.accumulated_fatigue_score ∧ state.accumulated_fatigue_score < 7 then
        { decision := .maintain
          reason := "Fatigue in moderate range (5-7/10)"
          user_message := "Fatigue is moderate. Holding steady this week gives you room to recover."
          coach_tone := .steady }
      -- Check 11: low energy
      else if state.energy_context = .low then
        { decision := .maintain
          reason := "Energy context is low"
          user_message := "Energy is lower than usual. Steady training beats pushing right now."
          coach_tone := .steady }
      -- Check 12: fewer than 2 weeks at current level
      else if state.week_number < 2 then
        { decision := .maintain
          reason := "Less than 2 weeks at current level"
          user_message := "Let’s hold this level for another week or two so it sticks."
          coach_tone := .steady }
      else
        let is_stable_week : Prop :=
          0.75 ≤ adherence_for_rules ∧ state.accumulated_fatigue_score < 5
            ∧ (state.energy_context = .normal ∨ state.energy_context = .high)
        -- Two consecutive stable weeks before progression
        if is_stable_week ∧ state.consecutive_stable_weeks < 2 then
          { decision := .maintain
            reason := "Stable week " ++ toString state.consecutive_stable_weeks ++ "/2 before progression"
            user_message := "You’re doing well. One more steady week and we’ll look to progress."
            coach_tone := .steady }
        -- All gates passed
        else if 0.75 ≤ adherence_for_rules ∧ state.accumulated_fatigue_score < 5
            ∧ (state.energy_context = .normal ∨ state.energy_context = .high)
            ∧ 2 ≤ state.week_number ∧ 2 ≤ state.consecutive_stable_weeks
            ∧ state.recent_pain_flags.length = 0 ∧ 2 ≤ state.consecutive_pain_free_weeks then
          { decision := .progress
            reason := "High adherence (≥75%), low fatigue (<5), good energy, 2+ stable weeks, pain-free"
            user_message := "You\x27ve been consistent and recovering well. Let\x27s build on that."
            coach_tone := .celebratory }
        else
          { decision := .maintain
            reason := "Default: no clear trigger for progress or scale-back"
            user_message := "No clear signal to progress or scale back this week. Holding steady."
            coach_tone := .steady }
    match state.weeks_since_last_scale_back with
    | Option.some w =>
      if w < 2 then
        { decision := .maintain
          reason := "Stabilizing after scale-back (" ++ toString w ++ "/2 weeks)"
          user_message := "You’re rebuilding after a lighter week. Keep this steady and repeatable."
          coach_tone := .steady }
      else after_stabilization
    | Option.none => after_stabilization

/-! ## Phase transition machine — `evaluatePhaseTransition`
(src/unnamed/part_002, lines 7–58). -/

def evaluatePhaseTransition (state : TrainingState) (recent_decision : TrainingDecision) :
    Option TrainingPhase :=
  -- Onboarding → Building
  if state.current_phase = .onboarding ∧ 3 ≤ state.week_number
      ∧ 0.6 ≤ state.adherence_rate_2week then
    Option.some .building
  -- Building → Maintaining
  else if state.current_phase = .building ∧ 0.4 ≤ state.adherence_rate_2week
      ∧ state.adherence_rate_2week < 0.75 ∧ 4 ≤ state.week_number then
    Option.some .maintaining
  -- Any phase → Recovering (if scale_back triggered)
  else if recent_decision = .scale_back then
    Option.some .recovering
  -- Recovering → Maintaining
  else if state.current_phase = .recovering ∧ 2 ≤ state.week_number
      ∧ 0.5 ≤ state.adherence_rate_2week ∧ state.accumulated_fatigue_score < 5 then
    Option.some .maintaining
  -- Maintaining → Building
  else if state.current_phase = .maintaining ∧ 4 ≤ state.week_number
      ∧ 0.75 ≤ state.adherence_rate_2week ∧ state.accumulated_fatigue_score < 5 then
    Option.some .building
  else
    Option.none

/-! ## Energy classifier — `determineEnergyContext` (src/src/evaluator.ts). -/

/-- `energy_level` of an `EnergyCheck` (models.ts). -/
inductive EnergyLevel
  | low
  | normal
  | high
deriving DecidableEq, Repr

/-- `eating_enough` of an `EnergyCheck` (models.ts). -/
inductive EatingEnough
  | not_sure
  | probably
  | yes
  | more_than_usual
deriving DecidableEq, Repr

/-- `EnergyCheck` (models.ts); the `id`/`date` fields are never read by the
classifier and are omitted. -/
structure EnergyCheck where
  energy_level : EnergyLevel
  eating_enough : EatingEnough
deriving DecidableEq, Repr

/-- `determineEnergyContext` (src/src/evaluator.ts lines 226–248).
`recent_energy_checks.slice(-4)` is the suffix of length ≤ 4. -/
def determineEnergyContext (recent_energy_checks : List EnergyCheck) : EnergyContext :=
  if recent_energy_checks.length = 0 then .normal
  else
    let recent := recent_energy_checks.drop (recent_energy_checks.length - 4)
    let low_count := recent.countP (fun c => decide (c.energy_level = .low))
    let high_count := recent.countP (fun c => decide (c.energy_level = .high))
    let underfed := recent.countP (fun c =>
      decide (c.energy_level = .low
        ∧ (c.eating_enough = .not_sure ∨ c.eating_enough = .probably)))
    if 2 ≤ underfed then .depleted
    else if 3 ≤ low_count then .low
    else if 3 ≤ high_count then .high
    else .normal

/-! ## Program mutator — `program_mutation.ts` (src/src/program_mutation.ts).

The source mutates `state.program` / `state.program_constraints` in place;
here every mutating function returns the updated `TrainingState` alongside
its `ProgramMutationResult`.  The human-readable `change_description`
strings interpolate JS-formatted numbers (`toFixed(1)`); that number
formatting is not modelled, so the descriptions here are the static part of
the source's message. -/

/-- `change_cause` of a `ProgramMutationResult`. -/
inductive ChangeCause
  | scale_back
  | progression_duration
  | progression_volume
  | progression_intensity
  | none
deriving DecidableEq, Repr

structure ProgramMutationResult where
  previous_program : ProgramConfig
  new_program : ProgramConfig
  change_description : String
  change_cause : ChangeCause
  is_intensity_reset : Bool
  at_true_ceiling : Bool
deriving DecidableEq, Repr

/-- `normalizeVolume`'s `Number(value.toFixed(1))`: rounding to one decimal
place (JS rounds half away from zero on nonnegative values, as `round` does). -/
def roundTenth (value : ℚ) : ℚ := (round (value * 10) : ℤ) / 10

/-- The scan loop of `normalizeVolume`: nearest ladder value, first wins on ties
(the loop starts at `ladder[0]` and only replaces on a strictly smaller gap). -/
def closestLadderValue (rounded : ℚ) : ℚ :=
  (VOLUME_LADDER.foldl
    (fun acc v => if |rounded - v| < acc.2 then (v, |rounded - v|) else acc)
    (1.0, |rounded - 1.0|)).1

/-- `normalizeVolume` (program_mutation.ts lines 122–135). -/
def normalizeVolume (value : ℚ) : ℚ :=
  let rounded := roundTenth value
  if rounded ∈ VOLUME_LADDER then rounded else closestLadderValue rounded

/-- `getNextVolume` (program_mutation.ts lines 136–144): first ladder entry
after the normalized current value that fits under the cap (`none` models the
source's `null`; a ladder value is never `0`, so JS truthiness of the result
coincides with `Option.isSome`). -/
def getNextVolume (current cap : ℚ) : Option ℚ :=
  let normalized := normalizeVolume current
  match VOLUME_LADDER.findIdx? (fun v => decide (v = normalized)) with
  | Option.none => Option.none
  | Option.some startIndex =>
      (VOLUME_LADDER.drop (startIndex + 1)).find? (fun v => decide (v ≤ cap))

/-- `getChallengingVolumeCap` (program_mutation.ts lines 145–152). -/
def getChallengingVolumeCap (duration : Nat) : ℚ :=
  if 60 ≤ duration then 1.0
  else if 55 ≤ duration then 1.0
  else if 50 ≤ duration then 1.5
  else if 45 ≤ duration then 1.4
  else if 40 ≤ duration then 1.3
  else 1.2

/-- `getChallengingNextDuration` (program_mutation.ts lines 153–161).
A ladder duration is never `0`, so JS truthiness of the result coincides
with `Option.isSome`. -/
def getChallengingNextDuration (duration : Nat) : Option Nat :=
  match DURATION_CHALLENGING_LADDER.findIdx? (fun v => decide (v = duration)) with
  | Option.none => DURATION_CHALLENGING_LADDER.find? (fun v => decide (duration < v))
  | Option.some index => DURATION_CHALLENGING_LADDER.get? (index + 1)

/-- `applyScaleBack` (program_mutation.ts lines 92–114): replaces the program
with the fixed recovery configuration. -/
def applyScaleBack (state : TrainingState) (previous : ProgramConfig) :
    TrainingState × ProgramMutationResult :=
  let new_program : ProgramConfig :=
    { sessions_per_week := 2
      intensity_tier := .light
      session_duration_minutes := DURATION_RECOVERING
      volume_multiplier := VOLUME_START }
  ({ state with program := new_program },
   { previous_program := previous
     new_program := new_program
     change_description := "Scaled back"
     change_cause := ChangeCause.scale_back
     is_intensity_reset := false
     at_true_ceiling := false })

/-- `applyProgression` (program_mutation.ts lines 116–310).  The source's
sequence of tier `if`-blocks is mutually exclusive on `current_intensity`, so
it is rendered as a match; a tier block that does not return falls through to
the shared ceiling block at the end, exactly as in the source.  Inside each
tier the source's `intensity_levels[current_index + 1]` and the companion
bound `current_index < intensity_levels.length - 1 = 2` are resolved for the
tier at hand. -/
def applyProgression (state : TrainingState) (previous : ProgramConfig) :
    TrainingState × ProgramMutationResult :=
  let current_duration := previous.session_duration_minutes
  let current_intensity := previous.intensity_tier
  let current_volume := normalizeVolume previous.volume_multiplier
  let ceilingResult : TrainingState × ProgramMutationResult :=
    let at_true_ceiling :=
      decide (current_intensity = .challenging ∧ 60 ≤ current_duration ∧ current_volume ≤ 1.0)
    (state,
     { previous_program := previous
       new_program := previous
       change_description := if at_true_ceiling
         then "At maximum training capacity (challenging intensity, max volume)"
         else "No progression available (blocked by constraints or phase limits)"
       change_cause := ChangeCause.none
       is_intensity_reset := false
       at_true_ceiling := at_true_ceiling })
  match current_intensity with
  | .light =>
    if current_duration < DURATION_BASE_LIGHT
        ∧ current_duration < state.program_constraints.max_duration_minutes then
      let new_duration := min DURATION_BASE_LIGHT state.program_constraints.max_duration_minutes
      let state' := { state with program :=
        { state.program with session_duration_minutes := new_duration } }
      (state',
       { previous_program := previous, new_program := state'.program
         change_description := "Duration increased"
         change_cause := ChangeCause.progression_duration
         is_intensity_reset := false, at_true_ceiling := false })
    else
      let cap := min VOLUME_CAP_LIGHT state.program_constraints.max_volume_multiplier
      match getNextVolume current_volume cap with
      | Option.some nextVolume =>
        let state' := { state with program :=
          { state.program with volume_multiplier := nextVolume } }
        (state',
         { previous_program := previous, new_program := state'.program
           change_description := "Volume increased"
           change_cause := ChangeCause.progression_volume
           is_intensity_reset := false, at_true_ceiling := false })
      | Option.none =>
        let current_index := intensityIndex current_intensity
        let max_index := intensityIndex state.program_constraints.max_intensity_tier
        if current_index < 2 ∧ current_index < max_index then
          let state' := { state with program :=
            { state.program with
                intensity_tier := .moderate
                session_duration_minutes := DURATION_BASE_MODERATE
                volume_multiplier := VOLUME_START } }
          (state',
           { previous_program := previous, new_program := state'.program
             change_description := "Intensity increased"
             change_cause := ChangeCause.progression_intensity
             is_intensity_reset := true, at_true_ceiling := false })
        else ceilingResult
  | .moderate =>
    if current_duration < DURATION_BASE_MODERATE
        ∧ current_duration < state.program_constraints.max_duration_minutes then
      let new_duration := min DURATION_BASE_MODERATE state.program_constraints.max_duration_minutes
      let state' := { state with program :=
        { state.program with session_duration_minutes := new_duration } }
      (state',
       { previous_program := previous, new_program := state'.program
         change_description := "Duration increased"
         change_cause := ChangeCause.progression_duration
         is_intensity_reset := false, at_true_ceiling := false })
    else
      let cap := min VOLUME_CAP_MODERATE state.program_constraints.max_volume_multiplier
      match getNextVolume current_volume cap with
      | Option.some nextVolume =>
        let state' := { state with program :=
          { state.program with volume_multiplier := nextVolume } }
        (state',
         { previous_program := previous, new_program := state'.program
           change_description := "Volume increased"
           change_cause := ChangeCause.progression_volume
           is_intensity_reset := false, at_true_ceiling := false })
      | Option.none =>
        let current_index := intensityIndex current_intensity
        let max_index := intensityIndex state.program_constraints.max_intensity_tier
        if current_index < 2 ∧ current_index < max_index then
          let state' := { state with program :=
            { state.program with
                intensity_tier := .challenging
                session_duration_minutes := DURATION_CHALLENGING_LADDER.headD 0
                volume_multiplier := VOLUME_START } }
          (state',
           { previous_program := previous, new_program := state'.program
             change_description := "Intensity increased"
             change_cause := ChangeCause.progression_intensity
             is_intensity_reset := true, at_true_ceiling := false })
        else ceilingResult
  | .challenging =>
    let cap := min (getChallengingVolumeCap current_duration)
      state.program_constraints.max_volume_multiplier
    match getNextVolume current_volume cap with
    | Option.some nextVolume =>
      let state' := { state with program :=
        { state.program with volume_multiplier := nextVolume } }
      (state',
       { previous_program := previous, new_program := state'.program
         change_description := "Volume increased"
         change_cause := ChangeCause.progression_volume
         is_intensity_reset := false, at_true_ceiling := false })
    | Option.none =>
      match getChallengingNextDuration current_duration with
      | Option.some nextDuration =>
        if nextDuration ≤ state.program_constraints.max_duration_minutes then
          let state' := { state with program :=
            { state.program with
                session_duration_minutes := nextDuration
                volume_multiplier := VOLUME_START } }
          (state',
           { previous_program := previous, new_program := state'.program
             change_description := "Duration increased, volume reset"
             change_cause := ChangeCause.progression_duration
             is_intensity_reset := false, at_true_ceiling := false })
        else ceilingResult
      | Option.none => ceilingResult

/-- `programDidChange` (program_mutation.ts lines 312–322). -/
def programDidChange (result : ProgramMutationResult) : Bool :=
  decide (result.previous_program.sessions_per_week ≠ result.new_program.sessions_per_week)
  || decide (result.previous_program.intensity_tier ≠ result.new_program.intensity_tier)
  || decide (result.previous_program.session_duration_minutes
      ≠ result.new_program.session_duration_minutes)
  || decide (result.previous_program.volume_multiplier ≠ result.new_program.volume_multiplier)

/-- `applyDecisionToProgram` (program_mutation.ts lines 31–90).  The final
"Unknown decision" fallback of the source is unreachable for the closed
`TrainingDecision` type and has no counterpart here. -/
def applyDecisionToProgram (state : TrainingState) (decision : TrainingDecision) :
    TrainingState × ProgramMutationResult :=
  let previous := state.program
  match decision with
  | .maintain =>
    (state,
     { previous_program := previous, new_program := previous
       change_description := "No program change"
       change_cause := ChangeCause.none
       is_intensity_reset := false, at_true_ceiling := false })
  | .scale_back =>
    let step := applyScaleBack state previous
    let state1 := step.1
    ({ state1 with program_constraints :=
        { max_sessions_per_week := state1.program.sessions_per_week
          max_intensity_tier := state1.program.intensity_tier
          max_duration_minutes := state1.program.session_duration_minutes
          max_volume_multiplier := state1.program.volume_multiplier } },
     step.2)
  | .progress =>
    let step := applyProgression state previous
    let state1 := step.1
    if programDidChange
        { previous_program := previous, new_program := state1.program
          change_description := "", change_cause := ChangeCause.none
          is_intensity_reset := false, at_true_ceiling := false } = true then
      let existing_index := intensityIndex state1.program_constraints.max_intensity_tier
      let current_index := intensityIndex state1.program.intensity_tier
      ({ state1 with program_constraints :=
          { max_sessions_per_week :=
              max state1.program_constraints.max_sessions_per_week state1.program.sessions_per_week
            max_intensity_tier := intensityFromIndex (max existing_index current_index)
            max_duration_minutes :=
              max state1.program_constraints.max_duration_minutes
                state1.program.session_duration_minutes
            max_volume_multiplier :=
              max state1.program_constraints.max_volume_multiplier
                state1.program.volume_multiplier } },
       step.2)
    else (state1, step.2)

/-! ## Exercise library — `services/session_generator.ts` (definition-table revision,
lines 323–705 of the concatenated file). -/

inductive ExerciseCategory
  | strength
  | cardio
  | mobility
deriving DecidableEq, Repr

/-- `Exercise` (models.ts).  Optional TS fields become `Option`; an absent
field is `Option.none`. -/
structure Exercise where
  id : Option String := Option.none
  name : String
  category : ExerciseCategory
  sets : Nat
  reps : String
  rest_seconds : Option Nat := Option.none
  notes : Option String := Option.none
  slot_id : Option String := Option.none
  slot_tag : Option String := Option.none
  movement_pattern : Option String := Option.none
  equipment : Option (List String) := Option.none
deriving DecidableEq, Repr

/-- `ExerciseDefinition` (session_generator.ts).  The by-intensity records are
total functions; the strength definitions all carry sets/reps/rest records and
the cardio definitions all carry duration/rest records, so the `?? default`
fallbacks of `buildStrengthPool`/`buildCardioPool` never fire and the
unused-category records are omitted per definition kind below. -/
structure StrengthDefinition where
  id : String
  name : String
  movement_pattern : String
  equipment : List String
  intensity_tiers : List IntensityTier
  sets_by_intensity : IntensityTier → Nat
  reps_by_intensity : IntensityTier → String
  rest_by_intensity : IntensityTier → Nat

structure CardioDefinition where
  id : String
  name : String
  movement_pattern : String
  equipment : List String
  intensity_tiers : List IntensityTier
  duration_by_intensity : IntensityTier → String
  rest_by_intensity : IntensityTier → Nat

/-- By-intensity record `{ light: a, moderate: b, challenging: c }`. -/
def byTier (a b c : α) : IntensityTier → α
  | .light => a
  | .moderate => b
  | .challenging => c

/-- `STRENGTH_DEFINITIONS` (session_generator.ts lines 374–529). -/
def STRENGTH_DEFINITIONS : List StrengthDefinition :=
  [ { id := "bw_squat", name := "Bodyweight Squat", movement_pattern := "squat"
      equipment := ["bodyweight"], intensity_tiers := [.light, .moderate, .challenging]
      sets_by_intensity := byTier 2 3 3
      reps_by_intensity := byTier "8-10" "10-12" "8-10"
      rest_by_intensity := byTier 60 60 90 },
    { id := "incline_pushup", name := "Incline Push-up", movement_pattern := "push"
      equipment := ["bodyweight"], intensity_tiers := [.light, .moderate]
      sets_by_intensity := byTier 2 3 3
      reps_by_intensity := byTier "6-8" "8-10" "10-12"
      rest_by_intensity := byTier 60 60 75 },
    { id := "pushup", name := "Push-up", movement_pattern := "push"
      equipment := ["bodyweight"], intensity_tiers := [.moderate, .challenging]
      sets_by_intensity := byTier 2 3 3
      reps_by_intensity := byTier "6-8" "8-10" "10-12"
      rest_by_intensity := byTier 60 60 75 },
    { id := "pike_pushup", name := "Pike Push-up", movement_pattern := "push"
      equipment := ["bodyweight"], intensity_tiers := [.moderate, .challenging]
      sets_by_intensity := byTier 2 2 3
      reps_by_intensity := byTier "6-8" "6-8" "8-10"
      rest_by_intensity := byTier 60 60 75 },
    { id := "glute_bridge", name := "Glute Bridge", movement_pattern := "hinge"
      equipment := ["bodyweight"], intensity_tiers := [.light, .moderate]
      sets_by_intensity := byTier 2 3 3
      reps_by_intensity := byTier "10-12" "8-10 each" "8-10 each"
      rest_by_intensity := byTier 45 45 60 },
    { id := "single_leg_deadlift", name := "Single-leg Deadlift", movement_pattern := "hinge"
      equipment := ["bodyweight", "dumbbell"], intensity_tiers := [.moderate, .challenging]
      sets_by_intensity := byTier 2 3 3
      reps_by_intensity := byTier "8-10 each" "8-10 each" "8-10 each"
      rest_by_intensity := byTier 60 60 75 },
    { id := "reverse_lunge", name := "Reverse Lunge", movement_pattern := "unilateral"
      equipment := ["bodyweight", "dumbbell"], intensity_tiers := [.light, .moderate, .challenging]
      sets_by_intensity := byTier 2 3 3
      reps_by_intensity := byTier "8-10 each leg" "8-10 each leg" "8-10 each leg"
      rest_by_intensity := byTier 60 60 75 },
    { id := "bulgarian_split_squat", name := "Bulgarian Split Squat", movement_pattern := "unilateral"
      equipment := ["bodyweight", "dumbbell"], intensity_tiers := [.moderate, .challenging]
      sets_by_intensity := byTier 2 3 3
      reps_by_intensity := byTier "8-10 each leg" "8-10 each leg" "8-10 each leg"
      rest_by_intensity := byTier 60 75 75 },
    { id := "row_band", name := "Band Row", movement_pattern := "pull"
      equipment := ["band"], intensity_tiers := [.light, .moderate, .challenging]
      sets_by_intensity := byTier 2 3 3
      reps_by_intensity := byTier "10-12" "10-12" "8-10"
      rest_by_intensity := byTier 45 60 60 },
    { id := "towel_row", name := "Towel Row", movement_pattern := "pull"
      equipment := ["bodyweight"], intensity_tiers := [.light, .moderate]
      sets_by_intensity := byTier 2 3 3
      reps_by_intensity := byTier "8-10" "8-10" "8-10"
      rest_by_intensity := byTier 45 60 60 },
    { id := "biceps_curl_band", name := "Band Biceps Curl", movement_pattern := "arms"
      equipment := ["band"], intensity_tiers := [.light, .moderate, .challenging]
      sets_by_intensity := byTier 2 3 3
      reps_by_intensity := byTier "10-12" "10-12" "8-10"
      rest_by_intensity := byTier 45 45 60 },
    { id := "triceps_dip", name := "Triceps Dip (chair)", movement_pattern := "arms"
      equipment := ["bodyweight"], intensity_tiers := [.moderate, .challenging]
      sets_by_intensity := byTier 2 3 3
      reps_by_intensity := byTier "8-10" "8-10" "10-12"
      rest_by_intensity := byTier 45 60 60 },
    { id := "plank_hold", name := "Plank Hold", movement_pattern := "core"
      equipment := ["bodyweight"], intensity_tiers := [.light, .moderate, .challenging]
      sets_by_intensity := byTier 2 2 2
      reps_by_intensity := byTier "15-20 seconds" "30-40 seconds" "45-60 seconds"
      rest_by_intensity := byTier 45 45 45 },
    { id := "side_plank", name := "Side Plank", movement_pattern := "core"
      equipment := ["bodyweight"], intensity_tiers := [.moderate, .challenging]
      sets_by_intensity := byTier 2 2 2
      reps_by_intensity := byTier "20 seconds" "30-40 seconds each" "45-60 seconds each"
      rest_by_intensity := byTier 45 45 45 } ]

/-- `CARDIO_DEFINITIONS` (session_generator.ts lines 531–622). -/
def CARDIO_DEFINITIONS : List CardioDefinition :=
  [ { id := "march_in_place", name := "Marching in Place", movement_pattern := "conditioning"
      equipment := ["bodyweight"], intensity_tiers := [.light]
      duration_by_intensity := byTier "2-3 minutes" "2 minutes" "90 seconds"
      rest_by_intensity := byTier 30 30 30 },
    { id := "step_ups", name := "Step-ups (low step)", movement_pattern := "conditioning"
      equipment := ["bodyweight"], intensity_tiers := [.light, .moderate]
      duration_by_intensity := byTier "2 minutes" "2 minutes" "90 seconds"
      rest_by_intensity := byTier 30 30 30 },
    { id := "easy_jumping_jacks", name := "Easy Jumping Jacks", movement_pattern := "conditioning"
      equipment := ["bodyweight"], intensity_tiers := [.light]
      duration_by_intensity := byTier "1 minute" "1 minute" "45 seconds"
      rest_by_intensity := byTier 30 30 30 },
    { id := "jumping_jacks", name := "Jumping Jacks", movement_pattern := "conditioning"
      equipment := ["bodyweight"], intensity_tiers := [.moderate]
      duration_by_intensity := byTier "1 minute" "1 minute" "45 seconds"
      rest_by_intensity := byTier 30 30 30 },
    { id := "high_knees", name := "High Knees", movement_pattern := "conditioning"
      equipment := ["bodyweight"], intensity_tiers := [.moderate, .challenging]
      duration_by_intensity := byTier "30 seconds" "30-45 seconds" "45 seconds"
      rest_by_intensity := byTier 30 30 45 },
    { id := "mountain_climbers", name := "Mountain Climbers", movement_pattern := "conditioning"
      equipment := ["bodyweight"], intensity_tiers := [.moderate, .challenging]
      duration_by_intensity := byTier "30 seconds" "30-45 seconds" "45 seconds"
      rest_by_intensity := byTier 30 45 45 },
    { id := "burpees", name := "Burpees", movement_pattern := "conditioning"
      equipment := ["bodyweight"], intensity_tiers := [.challenging]
      duration_by_intensity := byTier "30 seconds" "30-45 seconds" "30-45 seconds"
      rest_by_intensity := byTier 45 60 60 },
    { id := "jump_lunges", name := "Jump Lunges", movement_pattern := "conditioning"
      equipment := ["bodyweight"], intensity_tiers := [.challenging]
      duration_by_intensity := byTier "30 seconds" "30-45 seconds" "30-45 seconds"
      rest_by_intensity := byTier 45 60 60 },
    { id := "shadow_boxing", name := "Shadow Boxing", movement_pattern := "conditioning"
      equipment := ["bodyweight"], intensity_tiers := [.light, .moderate, .challenging]
      duration_by_intensity := byTier "2 minutes" "90 seconds" "60 seconds"
      rest_by_intensity := byTier 30 30 45 } ]

/-- `buildStrengthPool` (session_generator.ts lines 681–692); the intensity
filter is `EXERCISE_LIBRARY.strength[intensity]`. -/
def buildStrengthPool (intensity : IntensityTier) : List Exercise :=
  (STRENGTH_DEFINITIONS.filter (fun ex => decide (intensity ∈ ex.intensity_tiers))).map
    (fun ex =>
      { id := Option.some ex.id
        name := ex.name
        category := .strength
        sets := ex.sets_by_intensity intensity
        reps := ex.reps_by_intensity intensity
        rest_seconds := Option.some (ex.rest_by_intensity intensity)
        movement_pattern := Option.some ex.movement_pattern
        equipment := Option.some ex.equipment })

/-- `buildCardioPool` (session_generator.ts lines 694–705). -/
def buildCardioPool (intensity : IntensityTier) : List Exercise :=
  (CARDIO_DEFINITIONS.filter (fun ex => decide (intensity ∈ ex.intensity_tiers))).map
    (fun ex =>
      { id := Option.some ex.id
        name := ex.name
        category := .cardio
        sets := 1
        reps := ex.duration_by_intensity intensity
        rest_seconds := Option.some (ex.rest_by_intensity intensity)
        movement_pattern := Option.some ex.movement_pattern
        equipment := Option.some ex.equipment })

/-! ## Session generation — `plan.ts` (src/src/plan.ts). -/

inductive SessionType
  | A
  | B
  | C
deriving DecidableEq, Repr

def SessionType.str : SessionType → String
  | .A => "A"
  | .B => "B"
  | .C => "C"

def IntensityTier.str : IntensityTier → String
  | .light => "light"
  | .moderate => "moderate"
  | .challenging => "challenging"

inductive StrengthTemplateId
  | full_body
  | upper
  | lower
  | strength_conditioning
deriving DecidableEq, Repr

inductive SessionStyle
  | strength_focus
  | cardio_focus
  | balanced
  | recovery_mobility
deriving DecidableEq, Repr

inductive StrengthTag
  | lower
  | hinge
  | push
  | pull
  | arms
  | core
  | unilateral
deriving DecidableEq, Repr

/-- Rendering of a tag in template-literal seed strings. -/
def StrengthTag.str : StrengthTag → String
  | .lower => "lower"
  | .hinge => "hinge"
  | .push => "push"
  | .pull => "pull"
  | .arms => "arms"
  | .core => "core"
  | .unilateral => "unilateral"

/-! ### Seeded RNG — `seededRandom` (plan.ts lines 480–491).

The source hashes the seed string with 32-bit FNV-1a and then closes over a
32-bit linear congruential state, returning `state / 0xffffffff` per draw.
Every selection helper constructs a fresh generator from its own seed and
executes exactly one draw (`pickFromPool` runs once per selection), so the
first output fully determines every pick.  JS `charCodeAt` yields UTF-16 code
units; `Char.toNat` coincides with it on the basic multilingual plane, which
covers every seed the engine builds and every input evaluated here. -/

def fnv1aHash (seed : String) : Nat :=
  (seed.data.map Char.toNat).foldl
    (fun h c => ((h ^^^ c) * 16777619) % 4294967296) 2166136261

def lcgStep (state : Nat) : Nat := (state * 1664525 + 1013904223) % 4294967296

/-- Value of the first `rng()` draw of `seededRandom seed`.  The source
divides by `0xffffffff = 2 ^ 32 - 1`; this quotient is exact in ℚ, and at the
extremal state the JS double quotient is exactly 1 as well. -/
def seededRandomFirst (seed : String) : ℚ :=
  (lcgStep (fnv1aHash seed) : ℚ) / 4294967295

/-- `pickFromPool` (plan.ts lines 475–478): `pool[Math.floor(rng() * pool.length)]`.
The TS annotation promises an `Exercise`, but the indexing can in fact be out
of range; `Option.none` models the resulting `undefined`. -/
def pickFromPool (pool : List Exercise) (rngValue : ℚ) : Option Exercise :=
  pool.get? (Int.toNat ⌊rngValue * (pool.length : ℚ)⌋)

/-- `exercise.id ?? exercise.name`, the identity used for `used`/recency sets. -/
def exerciseKey (exercise : Exercise) : String := exercise.id.getD exercise.name

/-- The equipment-filter rejection test shared by the selection filters:
`equipmentFilter.length > 0 && !exercise.equipment?.some(eq => filter.includes(eq))`
(an absent equipment list fails the `some`, as `getD []` does here). -/
def equipmentExcluded (exercise : Exercise) (equipmentFilter : List String) : Bool :=
  decide (equipmentFilter ≠ [])
    && !((exercise.equipment.getD []).any (fun eq => decide (eq ∈ equipmentFilter)))

/-- `matchesTag` (plan.ts lines 463–473). -/
def matchesTag (exercise : Exercise) (tag : StrengthTag) : Bool :=
  let pattern := exercise.movement_pattern.getD ""
  match tag with
  | .lower => pattern == "squat" || pattern == "unilateral"
  | .hinge => pattern == "hinge"
  | .push => pattern == "push"
  | .pull => pattern == "pull"
  | .arms => pattern == "arms"
  | .core => pattern == "core"
  | .unilateral => pattern == "unilateral"

structure StrengthSelection where
  exercise : Option Exercise
  selection_fallback : Bool
deriving DecidableEq, Repr

/-- `selectStrengthExercise` (plan.ts lines 380–441): four selection pools in
order, first non-empty wins; all use the single draw of the seed's generator. -/
def selectStrengthExercise (pool : List Exercise) (tag : StrengthTag)
    (used recentIds equipmentFilter : List String) (seed : String) : StrengthSelection :=
  let rngValue := seededRandomFirst seed
  let eligible := pool.filter (fun ex =>
    decide (exerciseKey ex ∉ used) && matchesTag ex tag
      && !(equipmentExcluded ex equipmentFilter) && decide (exerciseKey ex ∉ recentIds))
  if eligible ≠ [] then
    { exercise := pickFromPool eligible rngValue, selection_fallback := false }
  else
    let allowRepeats := pool.filter (fun ex =>
      decide (exerciseKey ex ∉ used) && matchesTag ex tag
        && !(equipmentExcluded ex equipmentFilter))
    if allowRepeats ≠ [] then
      { exercise := pickFromPool allowRepeats rngValue, selection_fallback := true }
    else
      let relaxedTag := pool.filter (fun ex =>
        decide (exerciseKey ex ∉ used) && !(equipmentExcluded ex equipmentFilter)
          && decide (exerciseKey ex ∉ recentIds))
      if relaxedTag ≠ [] then
        { exercise := pickFromPool relaxedTag rngValue, selection_fallback := true }
      else
        let finalPool := pool.filter (fun ex => decide (exerciseKey ex ∉ used))
        if finalPool ≠ [] then
          { exercise := pickFromPool finalPool rngValue, selection_fallback := true }
        else
          { exercise := Option.none, selection_fallback := true }

/-- `pickCardioExercise` (plan.ts lines 443–461).  The TS annotation promises
an `Exercise`; `Option.none` models an out-of-range pick (`undefined`), which
the caller would then dereference and crash on. -/
def pickCardioExercise (pool : List Exercise) (recentIds equipmentFilter : List String)
    (seed : String) : Option Exercise :=
  let rngValue := seededRandomFirst seed
  let eligible := pool.filter (fun ex =>
    !(equipmentExcluded ex equipmentFilter) && decide (exerciseKey ex ∉ recentIds))
  if eligible ≠ [] then pickFromPool eligible rngValue
  else pickFromPool pool rngValue

/-- `scaleStrengthExercise` (plan.ts lines 496–513). -/
def scaleStrengthExercise (base : Exercise) (volume_mult : ℚ) : Exercise :=
  let scaled_sets := max 1 (Int.toNat (round ((base.sets : ℚ) * volume_mult)))
  { id := base.id
    name := base.name
    category := .strength
    sets := scaled_sets
    reps := base.reps
    rest_seconds := base.rest_seconds
    notes := if volume_mult < 0.6 then Option.some "Reduced volume for recovery" else Option.none
    movement_pattern := base.movement_pattern
    equipment := base.equipment }

/-- `getTemplateSlots` (plan.ts lines 335–378). -/
def getTemplateSlots (template : StrengthTemplateId) (sessionStyle : SessionStyle)
    (intensity : IntensityTier) (isMinimumViable : Bool) : List StrengthTag :=
  let addAccessory := isMinimumViable = false ∧ intensity ≠ .light
  if sessionStyle = .cardio_focus then
    if isMinimumViable then [.core] else [.lower, .core]
  else if sessionStyle = .recovery_mobility then
    if isMinimumViable then [.core] else [.core, .lower]
  else if template = .upper then
    let base : List StrengthTag :=
      if isMinimumViable then [.push, .pull, .core] else [.push, .pull, .push, .pull]
    if addAccessory ∨ sessionStyle = .strength_focus then base ++ [.arms] else base
  else if template = .lower then
    let base : List StrengthTag :=
      if isMinimumViable then [.lower, .hinge, .core] else [.lower, .hinge, .unilateral, .core]
    if addAccessory ∨ sessionStyle = .strength_focus then base ++ [.lower] else base
  else if template = .strength_conditioning then
    if isMinimumViable then [.lower, .core] else [.lower, .push, .core]
  else
    let base : List StrengthTag :=
      if isMinimumViable then [.lower, .push, .core] else [.lower, .push, .pull, .core]
    if addAccessory ∨ sessionStyle = .strength_focus then base ++ [.arms] else base

/-- Options record threaded through `buildStrengthTemplateExercises`.
`sessionSlotKey` is the source's session-slot marker string (type + variant);
`logSelectionFallbacks` only drives a `console.warn` and is not modelled. -/
structure SelectionOptions where
  recentIds : List String
  equipmentFilter : List String
  seedBase : String
  sessionSlotKey : String
deriving DecidableEq, Repr

/-- The slot loop of `buildStrengthTemplateExercises` (plan.ts lines 296–322):
walks the tag list with a running index, a `used` set, and a fallback count.
An empty selection places no exercise for the slot. -/
def buildSlots (pool : List Exercise) (volume_mult : ℚ) (opts : SelectionOptions) :
    Nat → List String → List StrengthTag → List Exercise × Nat
  | _, _, [] => ([], 0)
  | index, used, tag :: rest =>
    let seed := opts.seedBase ++ ":" ++ opts.sessionSlotKey ++ ":"
      ++ toString (index + 1) ++ ":" ++ tag.str
    let selection :=
      selectStrengthExercise pool tag used opts.recentIds opts.equipmentFilter seed
    let fallbackHere := if selection.selection_fallback then 1 else 0
    match selection.exercise with
    | Option.some ex =>
      let exercise :=
        { scaleStrengthExercise ex volume_mult with
            slot_id := Option.some (opts.sessionSlotKey ++ "-slot-" ++ toString (index + 1))
            slot_tag := Option.some tag.str
            id := ex.id
            movement_pattern := ex.movement_pattern
            equipment := ex.equipment }
      let next := buildSlots pool volume_mult opts (index + 1) (exerciseKey ex :: used) rest
      (exercise :: next.1, fallbackHere + next.2)
    | Option.none =>
      let next := buildSlots pool volume_mult opts (index + 1) used rest
      (next.1, fallbackHere + next.2)

/-- `buildStrengthTemplateExercises` (plan.ts lines 276–333). -/
def buildStrengthTemplateExercises (strength_pool : List Exercise)
    (template : StrengthTemplateId) (sessionStyle : SessionStyle)
    (intensity : IntensityTier) (volume_mult : ℚ) (isMinimumViable : Bool)
    (opts : SelectionOptions) : List Exercise × Nat :=
  let tags := getTemplateSlots template sessionStyle intensity isMinimumViable
  buildSlots strength_pool volume_mult opts 0 [] tags

/-- The fixed warm-up block (plan.ts lines 204–224). -/
def WARMUP : List Exercise :=
  [ { name := "Cat-Cow Stretch", category := .mobility, sets := 1, reps := "10 reps"
      notes := Option.some "Gentle spinal mobility" },
    { name := "Arm Circles", category := .mobility, sets := 1, reps := "10 forward, 10 back" },
    { name := "Leg Swings", category := .mobility, sets := 1, reps := "10 each leg" } ]

/-- The caller-supplied options of `generateExercisesForSession`;
`seedBase := Option.none` models an absent `options?.seedBase`. -/
structure GenerationOptions where
  recentExerciseIds : List String
  equipmentFilter : List String
  seedBase : Option String
deriving DecidableEq, Repr

/-- The cardio loop of `generateExercisesForSession` (plan.ts lines 252–271):
one entry per index; dereferencing an `undefined` pick throws in the source,
modelled by the whole loop returning `Option.none`. -/
def cardioLoop (cardio_pool : List Exercise) (recentIds equipmentFilter : List String)
    (cardioSeedBase sessionTypeStr : String) (isMinimumViable : Bool) :
    Nat → Nat → Option (List Exercise)
  | _, 0 => Option.some []
  | i, Nat.succ remaining =>
    match pickCardioExercise cardio_pool recentIds equipmentFilter
        (cardioSeedBase ++ "-cardio-" ++ toString i) with
    | Option.none => Option.none
    | Option.some cardio =>
      let entry : Exercise :=
        { id := cardio.id
          slot_id := Option.some (sessionTypeStr ++ "-cardio-" ++ toString (i + 1))
          slot_tag := Option.some "cardio"
          name := cardio.name
          category := .cardio
          sets := if isMinimumViable then 1 else 2
          reps := cardio.reps
          rest_seconds := cardio.rest_seconds
          movement_pattern := cardio.movement_pattern
          equipment := cardio.equipment }
      (cardioLoop cardio_pool recentIds equipmentFilter cardioSeedBase sessionTypeStr
        isMinimumViable (i + 1) remaining).map (fun restEntries => entry :: restEntries)

/-- `generateExercisesForSession` (plan.ts lines 186–274).  The source also
computes an unused `cardioIndex` local, omitted here. -/
def generateExercisesForSession (session_type : SessionType) (program : ProgramConfig)
    (isMinimumViable : Bool) (strengthTemplate : StrengthTemplateId)
    (sessionStyle : SessionStyle) (options : GenerationOptions) : Option (List Exercise) :=
  let intensity := program.intensity_tier
  let volume_mult := if isMinimumViable then (0.5 : ℚ) else program.volume_multiplier
  let strength_pool := buildStrengthPool intensity
  let cardio_pool := buildCardioPool intensity
  let strengthSelection := buildStrengthTemplateExercises strength_pool strengthTemplate
    sessionStyle intensity volume_mult isMinimumViable
    { recentIds := options.recentExerciseIds
      equipmentFilter := options.equipmentFilter
      seedBase := options.seedBase.getD (session_type.str ++ ":" ++ intensity.str)
      sessionSlotKey := session_type.str ++ "-" ++ (if isMinimumViable then "mv" else "full") }
  let cardioCount := if sessionStyle = .cardio_focus ∧ isMinimumViable = false then 2 else 1
  (cardioLoop cardio_pool options.recentExerciseIds options.equipmentFilter
      (options.seedBase.getD session_type.str) session_type.str isMinimumViable
      0 cardioCount).map
    (fun cardioEntries => WARMUP ++ strengthSelection.1 ++ cardioEntries)

/-- `Session` (models.ts).  `date` is the day number of the JS `Date`
(week-start day plus offset); `id` renders that day number where the source
renders the ISO date — both renderings are injective in the day.  The
`framework` constant is omitted.  `exercises` is `Option` because the
generation of a session's exercise list can throw (see `cardioLoop`). -/
structure Session where
  id : String
  date : Nat
  completed : Bool
  week_number : Nat
  session_number : Nat
  session_type : SessionType
  perceived_effort : Option String
  pain_or_injury_flag : Option String
  target_duration_minutes : Nat
  intensity_tier : IntensityTier
  is_minimum_viable : Bool
  exercises : Option (List Exercise)
deriving DecidableEq, Repr

/-- `Math.floor(duration * 0.6)` on an integer duration.  (The JS double
product can differ from the exact value by one ulp; on the engine's duration
values 15–60 the floor agrees with the exact rational computation except on
exact decimal ties, which no claim here depends on.) -/
def mvDuration (duration : Nat) : Nat := duration * 6 / 10

/-- The session loop of `generateSessions` (plan.ts lines 145–181). -/
def buildSessionList (state : TrainingState) (weekStart : Nat) (isMinimumViable : Bool)
    (strengthTemplate : StrengthTemplateId) (sessionStyle : SessionStyle)
    (recentExerciseIds equipmentFilter : List String) :
    Nat → List SessionType → List Session
  | _, [] => []
  | i, session_type :: rest =>
    let session_date := weekStart + i * 2
    let date_str := toString session_date
    { id := date_str ++ "-" ++ session_type.str
      date := session_date
      completed := false
      week_number := state.week_number
      session_number := i + 1
      session_type := session_type
      perceived_effort := Option.none
      pain_or_injury_flag := Option.none
      target_duration_minutes :=
        if isMinimumViable then mvDuration state.program.session_duration_minutes
        else state.program.session_duration_minutes
      intensity_tier := state.program.intensity_tier
      is_minimum_viable := isMinimumViable
      exercises := generateExercisesForSession session_type state.program isMinimumViable
        strengthTemplate sessionStyle
        { recentExerciseIds := recentExerciseIds
          equipmentFilter := equipmentFilter
          seedBase := Option.some (state.local_user_id ++ ":" ++ toString state.week_number
            ++ ":" ++ session_type.str ++ ":" ++ (if isMinimumViable then "mv" else "full")) } }
      :: buildSessionList state weekStart isMinimumViable strengthTemplate sessionStyle
          recentExerciseIds equipmentFilter (i + 1) rest

/-- `generateSessions` (plan.ts lines 128–184). -/
def generateSessions (state : TrainingState) (weekStart : Nat) (isMinimumViable : Bool)
    (strengthTemplate : StrengthTemplateId) (sessionStyle : SessionStyle)
    (recentExerciseIds equipmentFilter : List String) : List Session :=
  let session_types : List SessionType :=
    if state.program.sessions_per_week = 2 then [.A, .B]
    else if state.program.sessions_per_week = 3 then [.A, .B, .C]
    else [.A, .B, .C, .A]
  buildSessionList state weekStart isMinimumViable strengthTemplate sessionStyle
    recentExerciseIds equipmentFilter 0 session_types

/-! ## Invariant validator — `invariants.ts` (src/src/invariants.ts).

`validateWeeklyOutput` is a read-only checker over the assembled weekly
output; a failing check throws an `InvariantViolation` carrying a message and
a `{ week, output }` context.  The thrown value is modelled by the week
number plus the identity of the failing check (the message text additionally
embeds JS-formatted numbers, which are not modelled).  The output fields the
validator reads cross a JSON boundary (see the UI integration guide), so the
energy/intensity fields are kept as raw strings, exactly what the membership
checks test. -/

inductive InvariantCheck
  | planned_exceeds_target
  | session_count
  | mv_session_count
  | extra_mismatch
  | planned_mismatch
  | adherence_range
  | fatigue_range
  | energy_invalid
  | intensity_invalid
  | sessions_per_week_range
  | volume_range
  | duration_range
deriving DecidableEq, Repr

/-- `InvariantViolation` (invariants.ts lines 19–24), reduced to the data the
claims consult: the offending week and which check failed. -/
structure InvariantViolation where
  week : Nat
  check : InvariantCheck
deriving DecidableEq, Repr

structure CompletionBlock where
  raw_sessions_completed : Int
  planned_sessions_completed : Int
  extra_sessions : Int
  adherence_this_week : ℚ
deriving DecidableEq, Repr

structure OutputStateBlock where
  fatigue_score : ℚ
  energy_context : String
deriving DecidableEq, Repr

structure OutputProgramBlock where
  sessions_per_week : Int
  intensity_tier : String
  session_duration_minutes : ℚ
  volume_multiplier : ℚ
deriving DecidableEq, Repr

/-- `WeeklyEngineOutput` (engine_output.ts), restricted to the fields
`validateWeeklyOutput` reads. -/
structure WeeklyEngineOutput where
  week_number : Nat
  state : OutputStateBlock
  program : OutputProgramBlock
  sessions : List Session
  minimum_viable_sessions : List Session
  completion : CompletionBlock
deriving DecidableEq, Repr

/-- `validateWeeklyOutput` (invariants.ts lines 29–131); the twelve checks in
source order, first failure throws. -/
def validateWeeklyOutput (output : WeeklyEngineOutput) : Except InvariantViolation Unit :=
  if output.program.sessions_per_week < output.completion.planned_sessions_completed then
    Except.error { week := output.week_number, check := .planned_exceeds_target }
  else if (output.sessions.length : Int) ≠ output.program.sessions_per_week then
    Except.error { week := output.week_number, check := .session_count }
  else if (output.minimum_viable_sessions.length : Int) ≠ output.program.sessions_per_week then
    Except.error { week := output.week_number, check := .mv_session_count }
  else if output.completion.extra_sessions
      ≠ max 0 (output.completion.raw_sessions_completed - output.program.sessions_per_week) then
    Except.error { week := output.week_number, check := .extra_mismatch }
  else if output.completion.planned_sessions_completed
      ≠ min output.completion.raw_sessions_completed output.program.sessions_per_week then
    Except.error { week := output.week_number, check := .planned_mismatch }
  else if output.completion.adherence_this_week < 0 ∨ 1 < output.completion.adherence_this_week then
    Except.error { week := output.week_number, check := .adherence_range }
  else if output.state.fatigue_score < 0 ∨ 10 < output.state.fatigue_score then
    Except.error { week := output.week_number, check := .fatigue_range }
  else if output.state.energy_context ∉ ["depleted", "low", "normal", "high"] then
    Except.error { week := output.week_number, check := .energy_invalid }
  else if output.program.intensity_tier ∉ ["light", "moderate", "challenging"] then
    Except.error { week := output.week_number, check := .intensity_invalid }
  else if output.program.sessions_per_week < 2 ∨ 4 < output.program.sessions_per_week then
    Except.error { week := output.week_number, check := .sessions_per_week_range }
  else if output.program.volume_multiplier < 0.5 ∨ 2.0 < output.program.volume_multiplier then
    Except.error { week := output.week_number, check := .volume_range }
  else if output.program.session_duration_minutes < 15
      ∨ 60 < output.program.session_duration_minutes then
    Except.error { week := output.week_number, check := .duration_range }
  else
    Except.ok ()

/-! ## Specification-side definitions

The definitions in this section follow the wording of the specification and
of the claims (not the source); the theorems below compare them with the
source-derived definitions above. -/

/-- The trailing window of the last four energy checks (`slice(-4)`),
named for the spec's "takes the last four energy checks". -/
def lastFour (checks : List EnergyCheck) : List EnergyCheck :=
  checks.drop (checks.length - 4)

/-- Number of low-energy readings in a window (claim C8). -/
def lowReadings (recent : List EnergyCheck) : Nat :=
  recent.countP (fun c => decide (c.energy_level = .low))

/-- Number of high-energy readings in a window (claim C8). -/
def highReadings (recent : List EnergyCheck) : Nat :=
  recent.countP (fun c => decide (c.energy_level = .high))

/-- Number of checks reporting low energy jointly with uncertain or
likely-insufficient eating (claim C8). -/
def underfedReadings (recent : List EnergyCheck) : Nat :=
  recent.countP (fun c =>
    decide (c.energy_level = .low
      ∧ (c.eating_enough = .not_sure ∨ c.eating_enough = .probably)))

/-- The energy classification described by claim C8, as a function of the
trailing window. -/
def energyContextSpec (recent : List EnergyCheck) : EnergyContext :=
  if 2 ≤ underfedReadings recent then .depleted
  else if 3 ≤ lowReadings recent then .low
  else if 3 ≤ highReadings recent then .high
  else .normal

/-- Constraints that equal a program exactly, per field (claim C4's
post-scale-back characterisation). -/
def constraintsFromProgram (p : ProgramConfig) : ProgramConstraints :=
  { max_sessions_per_week := p.sessions_per_week
    max_intensity_tier := p.intensity_tier
    max_duration_minutes := p.session_duration_minutes
    max_volume_multiplier := p.volume_multiplier }

/-- Per-field maximum of a ceiling and a newly achieved program value
(claim C4's relaxation rule); intensity is compared in the order
light < moderate < challenging. -/
def relaxConstraints (c : ProgramConstraints) (p : ProgramConfig) : ProgramConstraints :=
  { max_sessions_per_week := max c.max_sessions_per_week p.sessions_per_week
    max_intensity_tier :=
      intensityFromIndex (max (intensityIndex c.max_intensity_tier) (intensityIndex p.intensity_tier))
    max_duration_minutes := max c.max_duration_minutes p.session_duration_minutes
    max_volume_multiplier := max c.max_volume_multiplier p.volume_multiplier }

/-- Pointwise order on constraint records (claim C4's "each field is ≥ its
pre-call value"). -/
def constraintsLE (c d : ProgramConstraints) : Prop :=
  c.max_sessions_per_week ≤ d.max_sessions_per_week
  ∧ intensityIndex c.max_intensity_tier ≤ intensityIndex d.max_intensity_tier
  ∧ c.max_duration_minutes ≤ d.max_duration_minutes
  ∧ c.max_volume_multiplier ≤ d.max_volume_multiplier

/-- The duration baseline of a tier as used by claim C5: the value the
mutator targets when raising duration inside the tier or on entering it
(35 is the first entry of the challenging duration ladder). -/
def tierBaselineDuration : IntensityTier → Nat
  | .light => DURATION_BASE_LIGHT
  | .moderate => DURATION_BASE_MODERATE
  | .challenging => 35

/-- The volume cap of a tier as used by claim C5 (for the challenging tier
the cap depends on the current duration). -/
def tierVolumeCap (t : IntensityTier) (duration : Nat) : ℚ :=
  match t with
  | .light => VOLUME_CAP_LIGHT
  | .moderate => VOLUME_CAP_MODERATE
  | .challenging => getChallengingVolumeCap duration

/-- The progression outcome claimed by C5, read literally: (1) duration to
the tier baseline, else (2) next ladder volume under the tier cap and the
ceiling, else (3) one intensity tier up with volume and duration reset, else
no change.  Returns (new program, cause, intensity-reset flag). -/
def claimedProgressOutcome (s : TrainingState) : ProgramConfig × ChangeCause × Bool :=
  let p := s.program
  let c := s.program_constraints
  if p.session_duration_minutes < tierBaselineDuration p.intensity_tier
      ∧ p.session_duration_minutes < c.max_duration_minutes then
    ({ p with
        session_duration_minutes :=
          min (tierBaselineDuration p.intensity_tier) c.max_duration_minutes },
      ChangeCause.progression_duration, false)
  else
    match getNextVolume (normalizeVolume p.volume_multiplier)
        (min (tierVolumeCap p.intensity_tier p.session_duration_minutes)
          c.max_volume_multiplier) with
    | Option.some v => ({ p with volume_multiplier := v }, ChangeCause.progression_volume, false)
    | Option.none =>
      if intensityIndex p.intensity_tier < 2
          ∧ intensityIndex p.intensity_tier < intensityIndex c.max_intensity_tier then
        (match p.intensity_tier with
         | .light =>
            ({ p with intensity_tier := .moderate
                      session_duration_minutes := tierBaselineDuration .moderate
                      volume_multiplier := VOLUME_START },
              ChangeCause.progression_intensity, true)
         | _ =>
            ({ p with intensity_tier := .challenging
                      session_duration_minutes := tierBaselineDuration .challenging
                      volume_multiplier := VOLUME_START },
              ChangeCause.progression_intensity, true))
      else (p, ChangeCause.none, false)

/-- Claim C5 as stated, at a given state: the mutator's outcome on a
progress decision matches `claimedProgressOutcome`. -/
def C5Claim (s : TrainingState) : Prop :=
  (applyDecisionToProgram s .progress).1.program = (claimedProgressOutcome s).1
  ∧ (applyDecisionToProgram s .progress).2.change_cause = (claimedProgressOutcome s).2.1
  ∧ (applyDecisionToProgram s .progress).2.is_intensity_reset = (claimedProgressOutcome s).2.2

/-- The amended progression outcome: claim C5's ladder for the light and
moderate tiers; for the challenging tier the mutator instead first advances
volume under the duration-dependent cap, then advances duration along the
challenging ladder resetting volume to the 1.0 baseline (cause
progression-duration), and otherwise leaves the program unchanged. -/
def amendedProgressOutcome (s : TrainingState) : ProgramConfig × ChangeCause × Bool :=
  let p := s.program
  let c := s.program_constraints
  match p.intensity_tier with
  | .light =>
    if p.session_duration_minutes < tierBaselineDuration .light
        ∧ p.session_duration_minutes < c.max_duration_minutes then
      ({ p with
          session_duration_minutes := min (tierBaselineDuration .light) c.max_duration_minutes },
        ChangeCause.progression_duration, false)
    else
      match getNextVolume (normalizeVolume p.volume_multiplier)
          (min (tierVolumeCap .light p.session_duration_minutes) c.max_volume_multiplier) with
      | Option.some v => ({ p with volume_multiplier := v }, ChangeCause.progression_volume, false)
      | Option.none =>
        if intensityIndex IntensityTier.light < 2
            ∧ intensityIndex IntensityTier.light < intensityIndex c.max_intensity_tier then
          ({ p with intensity_tier := .moderate
                    session_duration_minutes := tierBaselineDuration .moderate
                    volume_multiplier := VOLUME_START },
            ChangeCause.progression_intensity, true)
        else (p, ChangeCause.none, false)
  | .moderate =>
    if p.session_duration_minutes < tierBaselineDuration .moderate
        ∧ p.session_duration_minutes < c.max_duration_minutes then
      ({ p with
          session_duration_minutes := min (tierBaselineDuration .moderate) c.max_duration_minutes },
        ChangeCause.progression_duration, false)
    else
      match getNextVolume (normalizeVolume p.volume_multiplier)
          (min (tierVolumeCap .moderate p.session_duration_minutes) c.max_volume_multiplier) with
      | Option.some v => ({ p with volume_multiplier := v }, ChangeCause.progression_volume, false)
      | Option.none =>
        if intensityIndex IntensityTier.moderate < 2
            ∧ intensityIndex IntensityTier.moderate < intensityIndex c.max_intensity_tier then
          ({ p with intensity_tier := .challenging
                    session_duration_minutes := tierBaselineDuration .challenging
                    volume_multiplier := VOLUME_START },
            ChangeCause.progression_intensity, true)
        else (p, ChangeCause.none, false)
  | .challenging =>
    match getNextVolume (normalizeVolume p.volume_multiplier)
        (min (getChallengingVolumeCap p.session_duration_minutes) c.max_volume_multiplier) with
    | Option.some v => ({ p with volume_multiplier := v }, ChangeCause.progression_volume, false)
    | Option.none =>
      match getChallengingNextDuration p.session_duration_minutes with
      | Option.some d =>
        if d ≤ c.max_duration_minutes then
          ({ p with session_duration_minutes := d, volume_multiplier := VOLUME_START },
            ChangeCause.progression_duration, false)
        else (p, ChangeCause.none, false)
      | Option.none => (p, ChangeCause.none, false)

/-- The conjunction of checks listed by claim C7, in the claim's wording. -/
def weeklyInvariantsHold (o : WeeklyEngineOutput) : Prop :=
  o.completion.planned_sessions_completed ≤ o.program.sessions_per_week
  ∧ (o.sessions.length : Int) = o.program.sessions_per_week
  ∧ (o.minimum_viable_sessions.length : Int) = o.program.sessions_per_week
  ∧ o.completion.extra_sessions
      = max 0 (o.completion.raw_sessions_completed - o.program.sessions_per_week)
  ∧ o.completion.planned_sessions_completed
      = min o.completion.raw_sessions_completed o.program.sessions_per_week
  ∧ 0 ≤ o.completion.adherence_this_week ∧ o.completion.adherence_this_week ≤ 1
  ∧ 0 ≤ o.state.fatigue_score ∧ o.state.fatigue_score ≤ 10
  ∧ o.state.energy_context ∈ ["depleted", "low", "normal", "high"]
  ∧ o.program.intensity_tier ∈ ["light", "moderate", "challenging"]
  ∧ 2 ≤ o.program.sessions_per_week ∧ o.program.sessions_per_week ≤ 4
  ∧ 0.5 ≤ o.program.volume_multiplier ∧ o.program.volume_multiplier ≤ 2.0
  ∧ 15 ≤ o.program.session_duration_minutes ∧ o.program.session_duration_minutes ≤ 60

/-! ## Concrete states for witnesses and counterexamples -/

/-- A healthy mid-programme state used as the base of the concrete
witness/counterexample states below. -/
def baseState : TrainingState :=
  { local_user_id := "user-1"
    current_phase := .building
    week_number := 4
    program :=
      { sessions_per_week := 3, intensity_tier := .light
        session_duration_minutes := 25, volume_multiplier := 1.0 }
    program_constraints :=
      { max_sessions_per_week := 4, max_intensity_tier := .challenging
        max_duration_minutes := 60, max_volume_multiplier := 1.5 }
    sessions_last_14_days := 6
    adherence_rate_2week := 1.0
    low_adherence_weeks_in_row := 0
    accumulated_fatigue_score := 2
    energy_context := .normal
    recent_pain_flags := []
    has_active_injury := false
    consecutive_pain_free_weeks := 5
    days_since_last_session := 2
    weeks_since_last_scale_back := Option.none
    consecutive_stable_weeks := 3 }

/-- C1 witness: active injury together with the low-adherence condition. -/
def injuryLowAdherenceState : TrainingState :=
  { baseState with
      has_active_injury := true
      sessions_last_14_days := 0
      low_adherence_weeks_in_row := 2 }

/-- C2 counterexample: onboarding, week 3, adherence 0.6 — the
onboarding → building rule fires even though the decision is scale-back. -/
def onboardingScaleBackState : TrainingState :=
  { baseState with
      current_phase := .onboarding
      week_number := 3
      adherence_rate_2week := 0.6 }

/-- C2 witness: a state on which neither preempting transition rule fires. -/
def recoveringScaleBackState : TrainingState :=
  { baseState with current_phase := .recovering, week_number := 1 }

/-- C3 witness (scale-back side): 21 days since the last session. -/
def inactiveState21 : TrainingState :=
  { baseState with days_since_last_session := 21 }

/-- C3 witness (maintain side): 10 days since the last session. -/
def inactiveState10 : TrainingState :=
  { baseState with days_since_last_session := 10 }

/-- C4 witness: a light program below the baseline duration, so a progress
decision performs a duration progression. -/
def durationProgressState : TrainingState :=
  { baseState with program :=
      { sessions_per_week := 3, intensity_tier := .light
        session_duration_minutes := 20, volume_multiplier := 1.0 } }

/-- C5 counterexample: challenging tier at 35 minutes with volume 1.2 — the
claimed ladder says "no change", but the mutator advances the duration ladder
and resets volume. -/
def challengingLadderState : TrainingState :=
  { baseState with program :=
      { sessions_per_week := 3, intensity_tier := .challenging
        session_duration_minutes := 35, volume_multiplier := 1.2 } }

/-- C10 witness: a four-session program. -/
def fourSessionState : TrainingState :=
  { baseState with program :=
      { sessions_per_week := 4, intensity_tier := .moderate
        session_duration_minutes := 30, volume_multiplier := 1.0 } }

/-- Generation options used by the C6 witness. -/
def sampleGenerationOptions : GenerationOptions :=
  { recentExerciseIds := ["pushup"]
    equipmentFilter := ["bodyweight"]
    seedBase := Option.some "user-1:4:A:full" }

/-! ## Theorems -/

/-- Claim C8: `determineEnergyContext` classifies the last four energy checks
as depleted when at least two report low energy with uncertain or
likely-insufficient eating, else low on at least three low readings, else
high on at least three high readings, else normal; an empty check list yields
normal. -/
theorem determineEnergyContext_spec :
    (∀ checks : List EnergyCheck,
      determineEnergyContext checks = energyContextSpec (lastFour checks))
    ∧ determineEnergyContext [] = .normal := by
  refine ⟨fun checks => ?_, rfl⟩
  cases checks with
  | nil => rfl
  | cons c cs =>
    simp only [determineEnergyContext, energyContextSpec, lastFour,
      lowReadings, highReadings, underfedReadings]
    rw [if_neg (by simp)]

/-- Claim C1: when the active-injury flag and the low-adherence condition
(clamped adherence < 0.4 for ≥ 2 consecutive weeks) hold simultaneously, the
evaluator returns scale-back with the injury-specific reason, because the
injury safety gate is evaluated before the adherence gate. -/
theorem injury_gate_precedes_adherence_gate (s : TrainingState)
    (hinj : s.has_active_injury = true)
    (hadh : getAdherenceForRules s < 0.4)
    (hlow : 2 ≤ s.low_adherence_weeks_in_row) :
    (evaluateTrainingDecision s).decision = .scale_back
    ∧ (evaluateTrainingDecision s).reason = "Active injury flag present" := by
  simp [evaluateTrainingDecision, hinj]

unseal Rat.ofScientific Rat.mul Rat.inv Rat.add Rat.sub in
theorem injury_gate_precedes_adherence_gate_witness :
    (evaluateTrainingDecision injuryLowAdherenceState).decision = .scale_back
    ∧ (evaluateTrainingDecision injuryLowAdherenceState).reason = "Active injury flag present" :=
  injury_gate_precedes_adherence_gate injuryLowAdherenceState (by decide) (by decide) (by decide)

unseal Rat.ofScientific Rat.mul Rat.inv Rat.add Rat.sub in
/-- Claim C2 counterexample: on a state satisfying the onboarding → building
rule (onboarding, week ≥ 3, adherence ≥ 0.6), a finalized scale-back decision
does NOT yield the recovering phase — the onboarding rule is checked first
and wins. -/
theorem scale_back_transition_cex :
    evaluatePhaseTransition onboardingScaleBackState .scale_back = Option.some .building
    ∧ evaluatePhaseTransition onboardingScaleBackState .scale_back
        ≠ Option.some .recovering := by
  constructor
  · decide
  · decide

/-- Claim C2 (amended): a finalized scale-back decision yields the recovering
phase, except when the onboarding → building rule or the
building → maintaining rule fires, both of which are checked first. -/
theorem scale_back_transition_recovering (s : TrainingState)
    (h1 : ¬ (s.current_phase = .onboarding ∧ 3 ≤ s.week_number
        ∧ 0.6 ≤ s.adherence_rate_2week))
    (h2 : ¬ (s.current_phase = .building ∧ 0.4 ≤ s.adherence_rate_2week
        ∧ s.adherence_rate_2week < 0.75 ∧ 4 ≤ s.week_number)) :
    evaluatePhaseTransition s .scale_back = Option.some .recovering := by
  unfold evaluatePhaseTransition
  rw [if_neg h1, if_neg h2, if_pos rfl]

unseal Rat.ofScientific Rat.mul Rat.inv Rat.add Rat.sub in
theorem scale_back_transition_recovering_witness :
    evaluatePhaseTransition recoveringScaleBackState .scale_back = Option.some .recovering :=
  scale_back_transition_recovering recoveringScaleBackState (by decide) (by decide)

/-- Claim C3: when no earlier scale-back gate fires (no injury, fewer than two
pain reports, fatigue < 7, energy not depleted, low-adherence condition
absent), 21 or more days of inactivity yield scale-back with the
inactivity-specific reason, and 7–20 days yield maintain. -/
theorem inactivity_gates (s : TrainingState)
    (hinj : s.has_active_injury = false)
    (hpain : s.recent_pain_flags.length < 2)
    (hfat : s.accumulated_fatigue_score < 7)
    (henergy : s.energy_context ≠ .depleted)
    (hadh : ¬ (getAdherenceForRules s < 0.4 ∧ 2 ≤ s.low_adherence_weeks_in_row)) :
    (21 ≤ s.days_since_last_session →
      (evaluateTrainingDecision s).decision = .scale_back
      ∧ (evaluateTrainingDecision s).reason = "Inactive for 3+ weeks")
    ∧ (7 ≤ s.days_since_last_session → s.days_since_last_session < 21 →
      (evaluateTrainingDecision s).decision = .maintain) := by
  have hgate0 : ¬ (s.has_active_injury = true ∨ 2 ≤ s.recent_pain_flags.length) := by
    rintro (h | h)
    · rw [hinj] at h
      exact Bool.false_ne_true h
    · omega
  have hgate1 : ¬ (7 ≤ s.accumulated_fatigue_score) := not_le.mpr hfat
  constructor
  · intro h21
    unfold evaluateTrainingDecision
    dsimp only
    rw [if_neg hgate0, if_neg hgate1, if_neg henergy, if_neg hadh,
      if_pos (show 3 ≤ s.days_since_last_session / 7 by omega)]
    exact ⟨rfl, rfl⟩
  · intro h7 h21
    unfold evaluateTrainingDecision
    dsimp only
    rw [if_neg hgate0, if_neg hgate1, if_neg henergy, if_neg hadh,
      if_neg (show ¬ 3 ≤ s.days_since_last_session / 7 by omega),
      if_pos (show 1 ≤ s.days_since_last_session / 7 by omega)]

unseal Rat.ofScientific Rat.mul Rat.inv Rat.add Rat.sub in
theorem inactivity_gates_witness :
    ((evaluateTrainingDecision inactiveState21).decision = .scale_back
      ∧ (evaluateTrainingDecision inactiveState21).reason = "Inactive for 3+ weeks")
    ∧ (evaluateTrainingDecision inactiveState10).decision = .maintain :=
  ⟨(inactivity_gates inactiveState21 (by decide) (by decide) (by decide) (by decide)
      (by decide)).1 (by decide),
   (inactivity_gates inactiveState10 (by decide) (by decide) (by decide) (by decide)
      (by decide)).2 (by decide) (by decide)⟩

/-- Claim C6: exercise generation is deterministic — two calls with equal
program config, session type, minimum-viable flag, strength template, session
style, and generation options (recency list, equipment filter, seed base)
produce identical exercise lists in identical order.  (The generator is a
pure function of these inputs: its only randomness source is `seededRandom`,
seeded from the seed-base string.) -/
theorem generateExercisesForSession_deterministic
    (t1 t2 : SessionType) (p1 p2 : ProgramConfig) (mv1 mv2 : Bool)
    (st1 st2 : StrengthTemplateId) (ss1 ss2 : SessionStyle)
    (o1 o2 : GenerationOptions)
    (ht : t1 = t2) (hp : p1 = p2) (hmv : mv1 = mv2) (hst : st1 = st2)
    (hss : ss1 = ss2) (ho : o1 = o2) :
    generateExercisesForSession t1 p1 mv1 st1 ss1 o1
      = generateExercisesForSession t2 p2 mv2 st2 ss2 o2 := by
  subst ht hp hmv hst hss ho
  rfl

theorem generateExercisesForSession_deterministic_witness :
    generateExercisesForSession .A baseState.program false .full_body .balanced
        sampleGenerationOptions
      = generateExercisesForSession .A baseState.program false .full_body .balanced
        sampleGenerationOptions :=
  generateExercisesForSession_deterministic .A .A baseState.program baseState.program
    false false .full_body .full_body .balanced .balanced
    sampleGenerationOptions sampleGenerationOptions rfl rfl rfl rfl rfl rfl

unseal Rat.ofScientific Rat.mul Rat.inv Rat.add Rat.sub in
/-- Claim C9 (refuted — code bug): the source's `seededRandom` divides the
32-bit LCG state by `0xffffffff = 2^32 − 1`, so when the state reaches
`0xffffffff` the generator outputs exactly 1, not a value strictly below 1.
The seed string "oUqv3c" hashes (FNV-1a) to the unique state whose next LCG
step is `0xffffffff`; on the 8-element light strength pool the selection index
`Math.floor(rng() * pool.length)` is then 8 — one past the end — and
`pool[8]` is `undefined` (`Option.none` here). -/
theorem seededRandom_unit_output_bug :
    seededRandomFirst "oUqv3c" = 1
    ∧ (buildStrengthPool IntensityTier.light).length = 8
    ∧ Int.toNat ⌊seededRandomFirst "oUqv3c"
        * ((buildStrengthPool IntensityTier.light).length : ℚ)⌋ = 8
    ∧ pickFromPool (buildStrengthPool IntensityTier.light) (seededRandomFirst "oUqv3c")
        = Option.none := by
  have hs : lcgStep (fnv1aHash "oUqv3c") = 4294967295 := by decide
  have h1 : seededRandomFirst "oUqv3c" = 1 := by
    unfold seededRandomFirst
    rw [hs]
    norm_num
  have hlen : (buildStrengthPool IntensityTier.light).length = 8 := by decide
  have hidx : Int.toNat ⌊seededRandomFirst "oUqv3c"
      * ((buildStrengthPool IntensityTier.light).length : ℚ)⌋ = 8 := by
    rw [h1, hlen]
    norm_num
    rfl
  refine ⟨h1, hlen, hidx, ?_⟩
  unfold pickFromPool
  rw [hidx]
  decide

/-- Claim C10: with `sessions_per_week = 4`, `generateSessions` produces the
session types A, B, C, A in order; the first and fourth sessions are both
generated from the seed base `user:week:A:variant` (the base does not involve
the session index), so their exercise lists coincide, and the two sessions
agree on every other field, differing only in id, date and session number. -/
theorem generateSessions_four_per_week (s : TrainingState) (weekStart : Nat)
    (mv : Bool) (st : StrengthTemplateId) (ss : SessionStyle)
    (recents equipment : List String)
    (h : s.program.sessions_per_week = 4) :
    ∃ s1 s2 s3 s4 : Session,
      generateSessions s weekStart mv st ss recents equipment = [s1, s2, s3, s4]
      ∧ s1.session_type = .A ∧ s2.session_type = .B
      ∧ s3.session_type = .C ∧ s4.session_type = .A
      ∧ s4.exercises = s1.exercises
      ∧ s4.completed = s1.completed
      ∧ s4.week_number = s1.week_number
      ∧ s4.target_duration_minutes = s1.target_duration_minutes
      ∧ s4.intensity_tier = s1.intensity_tier
      ∧ s4.is_minimum_viable = s1.is_minimum_viable
      ∧ s4.perceived_effort = s1.perceived_effort
      ∧ s4.pain_or_injury_flag = s1.pain_or_injury_flag
      ∧ s1.session_number = 1 ∧ s4.session_number = 4
      ∧ s1.date = weekStart ∧ s4.date = weekStart + 6
      ∧ s1.id = toString weekStart ++ "-" ++ "A"
      ∧ s4.id = toString (weekStart + 6) ++ "-" ++ "A" := by
  unfold generateSessions
  rw [h, if_neg (by decide : ¬ (4 : Nat) = 2), if_neg (by decide : ¬ (4 : Nat) = 3)]
  simp only [buildSessionList]
  exact ⟨_, _, _, _, rfl, rfl, rfl, rfl, rfl, rfl, rfl, rfl, rfl, rfl, rfl, rfl,
    rfl, rfl, rfl, rfl, rfl, rfl, rfl⟩

theorem generateSessions_four_per_week_witness :
    ∃ s1 s2 s3 s4 : Session,
      generateSessions fourSessionState 0 false .full_body .balanced [] [] = [s1, s2, s3, s4]
      ∧ s1.session_type = .A ∧ s2.session_type = .B
      ∧ s3.session_type = .C ∧ s4.session_type = .A
      ∧ s4.exercises = s1.exercises
      ∧ s4.completed = s1.completed
      ∧ s4.week_number = s1.week_number
      ∧ s4.target_duration_minutes = s1.target_duration_minutes
      ∧ s4.intensity_tier = s1.intensity_tier
      ∧ s4.is_minimum_viable = s1.is_minimum_viable
      ∧ s4.perceived_effort = s1.perceived_effort
      ∧ s4.pain_or_injury_flag = s1.pain_or_injury_flag
      ∧ s1.session_number = 1 ∧ s4.session_number = 4
      ∧ s1.date = 0 ∧ s4.date = 0 + 6
      ∧ s1.id = toString 0 ++ "-" ++ "A"
      ∧ s4.id = toString (0 + 6) ++ "-" ++ "A" :=
  generateSessions_four_per_week fourSessionState 0 false .full_body .balanced [] [] rfl

/-- Claim C7: `validateWeeklyOutput` succeeds exactly when the weekly output
satisfies every listed check (planned ≤ target, both generated session counts
equal the target, extra = max(0, raw − target), planned = min(raw, target),
adherence ∈ [0,1], fatigue ∈ [0,10], energy and intensity from their closed
enumerations, sessions/week ∈ [2,4], volume ∈ [0.5,2], duration ∈ [15,60]);
any failure produces an `InvariantViolation` carrying the offending week.
The checker is a pure function of the output and returns only the verdict,
so the output itself is untouched. -/
theorem validateWeeklyOutput_spec (o : WeeklyEngineOutput) :
    (validateWeeklyOutput o = Except.ok () ↔ weeklyInvariantsHold o)
    ∧ (match validateWeeklyOutput o with
       | Except.error e => e.week = o.week_number
       | Except.ok _ => True) := by
  unfold validateWeeklyOutput weeklyInvariantsHold
  by_cases h1 : o.program.sessions_per_week < o.completion.planned_sessions_completed
  · rw [if_pos h1]
    exact ⟨⟨fun hcontr => Except.noConfusion hcontr,
      fun hc => absurd hc.1 (not_le.mpr h1)⟩, rfl⟩
  · rw [if_neg h1]
    by_cases h2 : (o.sessions.length : Int) ≠ o.program.sessions_per_week
    · rw [if_pos h2]
      exact ⟨⟨fun hcontr => Except.noConfusion hcontr, fun hc => absurd hc.2.1 h2⟩, rfl⟩
    · rw [if_neg h2]
      by_cases h3 : (o.minimum_viable_sessions.length : Int) ≠ o.program.sessions_per_week
      · rw [if_pos h3]
        exact ⟨⟨fun hcontr => Except.noConfusion hcontr, fun hc => absurd hc.2.2.1 h3⟩, rfl⟩
      · rw [if_neg h3]
        by_cases h4 : o.completion.extra_sessions
            ≠ max 0 (o.completion.raw_sessions_completed - o.program.sessions_per_week)
        · rw [if_pos h4]
          exact ⟨⟨fun hcontr => Except.noConfusion hcontr, fun hc => absurd hc.2.2.2.1 h4⟩, rfl⟩
        · rw [if_neg h4]
          by_cases h5 : o.completion.planned_sessions_completed
              ≠ min o.completion.raw_sessions_completed o.program.sessions_per_week
          · rw [if_pos h5]
            exact ⟨⟨fun hcontr => Except.noConfusion hcontr,
              fun hc => absurd hc.2.2.2.2.1 h5⟩, rfl⟩
          · rw [if_neg h5]
            by_cases h6 : o.completion.adherence_this_week < 0
                ∨ 1 < o.completion.adherence_this_week
            · rw [if_pos h6]
              refine ⟨⟨fun hcontr => Except.noConfusion hcontr, fun hc => ?_⟩, rfl⟩
              rcases h6 with h | h
              · exact absurd hc.2.2.2.2.2.1 (not_le.mpr h)
              · exact absurd hc.2.2.2.2.2.2.1 (not_le.mpr h)
            · rw [if_neg h6]
              by_cases h7 : o.state.fatigue_score < 0 ∨ 10 < o.state.fatigue_score
              · rw [if_pos h7]
                refine ⟨⟨fun hcontr => Except.noConfusion hcontr, fun hc => ?_⟩, rfl⟩
                rcases h7 with h | h
                · exact absurd hc.2.2.2.2.2.2.2.1 (not_le.mpr h)
                · exact absurd hc.2.2.2.2.2.2.2.2.1 (not_le.mpr h)
              · rw [if_neg h7]
                by_cases h8 : o.state.energy_context ∉ ["depleted", "low", "normal", "high"]
                · rw [if_pos h8]
                  exact ⟨⟨fun hcontr => Except.noConfusion hcontr,
                    fun hc => absurd hc.2.2.2.2.2.2.2.2.2.1 h8⟩, rfl⟩
                · rw [if_neg h8]
                  by_cases h9 : o.program.intensity_tier ∉ ["light", "moderate", "challenging"]
                  · rw [if_pos h9]
                    exact ⟨⟨fun hcontr => Except.noConfusion hcontr,
                      fun hc => absurd hc.2.2.2.2.2.2.2.2.2.2.1 h9⟩, rfl⟩
                  · rw [if_neg h9]
                    by_cases h10 : o.program.sessions_per_week < 2
                        ∨ 4 < o.program.sessions_per_week
                    · rw [if_pos h10]
                      refine ⟨⟨fun hcontr => Except.noConfusion hcontr, fun hc => ?_⟩, rfl⟩
                      rcases h10 with h | h
                      · exact absurd hc.2.2.2.2.2.2.2.2.2.2.2.1 (not_le.mpr h)
                      · exact absurd hc.2.2.2.2.2.2.2.2.2.2.2.2.1 (not_le.mpr h)
                    · rw [if_neg h10]
                      by_cases h11 : o.program.volume_multiplier < 0.5
                          ∨ 2.0 < o.program.volume_multiplier
                      · rw [if_pos h11]
                        refine ⟨⟨fun hcontr => Except.noConfusion hcontr, fun hc => ?_⟩, rfl⟩
                        rcases h11 with h | h
                        · exact absurd hc.2.2.2.2.2.2.2.2.2.2.2.2.2.1 (not_le.mpr h)
                        · exact absurd hc.2.2.2.2.2.2.2.2.2.2.2.2.2.2.1 (not_le.mpr h)
                      · rw [if_neg h11]
                        by_cases h12 : o.program.session_duration_minutes < 15
                            ∨ 60 < o.program.session_duration_minutes
                        · rw [if_pos h12]
                          refine ⟨⟨fun hcontr => Except.noConfusion hcontr, fun hc => ?_⟩, rfl⟩
                          rcases h12 with h | h
                          · exact absurd hc.2.2.2.2.2.2.2.2.2.2.2.2.2.2.2.1 (not_le.mpr h)
                          · exact absurd hc.2.2.2.2.2.2.2.2.2.2.2.2.2.2.2.2 (not_le.mpr h)
                        · rw [if_neg h12]
                          exact ⟨iff_of_true rfl ⟨not_lt.mp h1, not_not.mp h2, not_not.mp h3,
                            not_not.mp h4, not_not.mp h5,
                            not_lt.mp (not_or.mp h6).1, not_lt.mp (not_or.mp h6).2,
                            not_lt.mp (not_or.mp h7).1, not_lt.mp (not_or.mp h7).2,
                            not_not.mp h8, not_not.mp h9,
                            not_lt.mp (not_or.mp h10).1, not_lt.mp (not_or.mp h10).2,
                            not_lt.mp (not_or.mp h11).1, not_lt.mp (not_or.mp h11).2,
                            not_lt.mp (not_or.mp h12).1, not_lt.mp (not_or.mp h12).2⟩, trivial⟩

/-- `applyProgression` never touches the constraint record (it only rewrites
`state.program`). -/
theorem applyProgression_constraints (s : TrainingState) (prev : ProgramConfig) :
    (applyProgression s prev).1.program_constraints = s.program_constraints := by
  unfold applyProgression
  rcases prev with ⟨pa, tier, pd, pv⟩
  cases tier <;> dsimp only <;> (repeat' split) <;> rfl

/-- `programDidChange` detects exactly record inequality of the two programs
(it compares all four fields). -/
theorem programDidChange_iff (p q : ProgramConfig) (d : String) (cc : ChangeCause)
    (b1 b2 : Bool) :
    programDidChange { previous_program := p, new_program := q, change_description := d,
                       change_cause := cc, is_intensity_reset := b1,
                       at_true_ceiling := b2 } = true ↔ p ≠ q := by
  rcases p with ⟨p1, p2, p3, p4⟩
  rcases q with ⟨q1, q2, q3, q4⟩
  simp only [programDidChange, Bool.or_eq_true, decide_eq_true_eq, ne_eq,
    ProgramConfig.mk.injEq, not_and]
  tauto

theorem intensityIndex_le_two (t : IntensityTier) : intensityIndex t ≤ 2 := by
  cases t <;> simp [intensityIndex]

theorem intensityIndex_fromIndex (m : Nat) (hm : m ≤ 2) :
    intensityIndex (intensityFromIndex m) = m := by
  interval_cases m <;> rfl

/-- Projections of `applyDecisionToProgram` on a progress decision reduce to
the underlying `applyProgression` call (only the constraints differ between
the two branches of the relaxation guard). -/
theorem applyDecisionToProgram_progress_program (s : TrainingState) :
    (applyDecisionToProgram s .progress).1.program = (applyProgression s s.program).1.program
    ∧ (applyDecisionToProgram s .progress).2 = (applyProgression s s.program).2 := by
  unfold applyDecisionToProgram
  dsimp only
  constructor <;> (split <;> rfl)

/-- Claim C4: the constraint ratchet.  After a progress decision that changes
the program, the constraints are recomputed as the per-field maximum of the
prior ceiling and the newly achieved program value — hence every field is ≥
its pre-call value (intensity ordered light < moderate < challenging).  After
a scale-back decision the constraints equal the post-scale-back program
exactly, field by field. -/
theorem constraint_ratchet (s : TrainingState) :
    ((applyDecisionToProgram s .progress).1.program ≠ s.program →
      (applyDecisionToProgram s .progress).1.program_constraints
        = relaxConstraints s.program_constraints ((applyDecisionToProgram s .progress).1.program)
      ∧ constraintsLE s.program_constraints
          ((applyDecisionToProgram s .progress).1.program_constraints))
    ∧ (applyDecisionToProgram s .scale_back).1.program_constraints
        = constraintsFromProgram ((applyDecisionToProgram s .scale_back).1.program) := by
  constructor
  · intro hchange
    have hconstr := applyProgression_constraints s s.program
    unfold applyDecisionToProgram at hchange ⊢
    dsimp only at hchange ⊢
    by_cases hg : programDidChange
        { previous_program := s.program
          new_program := (applyProgression s s.program).1.program
          change_description := "", change_cause := ChangeCause.none
          is_intensity_reset := false, at_true_ceiling := false } = true
    · rw [if_pos hg]
      constructor
      · simp only [relaxConstraints]
        rw [hconstr]
      · unfold constraintsLE
        dsimp only
        rw [hconstr]
        refine ⟨le_max_left _ _, ?_, le_max_left _ _, le_max_left _ _⟩
        rw [intensityIndex_fromIndex _
          (max_le (intensityIndex_le_two _) (intensityIndex_le_two _))]
        exact le_max_left _ _
    · rw [if_neg hg] at hchange
      have heq : ¬ (s.program ≠ (applyProgression s s.program).1.program) :=
        fun hne => hg ((programDidChange_iff _ _ _ _ _ _).mpr hne)
      exact absurd (not_not.mp heq).symm hchange
  · rfl

unseal Rat.ofScientific Rat.mul Rat.inv Rat.add Rat.sub in
theorem constraint_ratchet_witness :
    (applyDecisionToProgram durationProgressState .progress).1.program_constraints
      = relaxConstraints durationProgressState.program_constraints
          ((applyDecisionToProgram durationProgressState .progress).1.program)
    ∧ constraintsLE durationProgressState.program_constraints
        ((applyDecisionToProgram durationProgressState .progress).1.program_constraints) :=
  (constraint_ratchet durationProgressState).1 (by decide)

unseal Rat.ofScientific Rat.mul Rat.inv Rat.add Rat.sub in
/-- Claim C5 counterexample: at a challenging-tier program (35 minutes,
volume 1.2) under unrestrictive ceilings, the claimed ladder — duration to
baseline, else next ladder volume, else next intensity tier, else unchanged —
says the program stays unchanged (no volume step fits under the cap 1.2 and
no higher tier exists), but `applyProgression` advances the duration ladder
to 40 minutes, resets volume to 1.0, and reports cause progression-duration. -/
theorem progression_ladder_cex : ¬ C5Claim challengingLadderState := by
  unfold C5Claim
  decide

/-- Claim C5 (amended): the progression priority ladder as claimed holds for
the light and moderate tiers; for the challenging tier the mutator instead
first advances volume under a duration-dependent cap, then advances duration
along the ladder 35…60 (resetting volume to the 1.0 baseline, cause
progression-duration), and otherwise leaves the program unchanged. -/
theorem progression_ladder_amended (s : TrainingState) :
    ((applyDecisionToProgram s .progress).1.program,
     (applyDecisionToProgram s .progress).2.change_cause,
     (applyDecisionToProgram s .progress).2.is_intensity_reset)
      = amendedProgressOutcome s := by
  obtain ⟨hprog, hres⟩ := applyDecisionToProgram_progress_program s
  rw [hprog, hres]
  rcases s with ⟨uid, phase, wk, prog, cons, s14, adh, low, fat, en, pain, inj, pfw, days, wsb, csw⟩
  rcases prog with ⟨pa, tier, pd, pv⟩
  cases tier <;>
    (unfold applyProgression amendedProgressOutcome
     dsimp only
     simp only [tierBaselineDuration, tierVolumeCap]) <;>
    (repeat' split) <;> rfl

end TrainingEngine
